import Mathlib

/-!
Shallow embedding of the health-reporting sidecar in `src/src/index.ts`.

The program keeps four pieces of mutable global state: `dbPool` (the pg
connection pool, or `null`), `isHealthy` (the backing-store status flag),
`dbConnectionString`, and `dependencyHealth` (a JS `Map` from dependency URL
to boolean liveness).  The timer-driven functions `initializeDatabase`,
`pingDatabase`, `pingDependency` and `pingDependencies` are embedded as pure
state-transformers over that state; each also returns the list of observable
effects (secret fetch, pool creation with its options, connection
acquisition, query, release, pool teardown, HTTP GET) it performed against
its external collaborators.  Outcomes of those collaborators (secret fetch
result, pool construction, connection acquisition, query, teardown) are
supplied as explicit environment values, one per call.  The JS `Map` is
embedded as an insertion-ordered association list with overwrite-on-set,
matching `Map.set` / `Object.fromEntries` semantics.
-/

namespace DatabaseService

/-- Observable effects the service performs against external collaborators. -/
inductive Effect where
  | fetchSecret
  | createPool (id : Nat) (max : Nat) (idleTimeoutMillis : Nat)
      (connectionTimeoutMillis : Nat) (rejectUnauthorized : Bool)
  | acquire
  | query (q : String)
  | release
  | endPool (id : Nat)
  | httpGet (url : String) (timeoutMs : Nat)
  deriving DecidableEq, Repr

/-- Parsed JSON secret: the three fields the code inspects, each possibly
absent (`undefined`). -/
structure Secret where
  connectionString : Option String
  url : Option String
  dbUrl : Option String
  deriving DecidableEq, Repr

/-- JS truthiness of a possibly-absent string: `undefined` and `""` are
falsy, every other string is truthy. -/
def jsTruthy : Option String → Bool
  | none => false
  | some s => !(s == "")

/-- JS `a || b` on possibly-absent strings: yields `a` when `a` is truthy,
otherwise `b`. -/
def jsOr (a b : Option String) : Option String :=
  if jsTruthy a then a else b

/-- Outcome of one interaction with the secret-retrieval collaborator,
covering every distinguishable failure of `fetchDatabaseCredentials` before
field selection. -/
inductive SecretFetchEnv where
  | noArn
  | sendError
  | emptySecret
  | parseError
  | parsed (sec : Secret)
  deriving DecidableEq, Repr

/-- Embeds `fetchDatabaseCredentials` (src/src/index.ts:28-60): every throw
becomes `Except.error`; on a parsed secret the connection string is
`secret.connectionString || secret.url || secret.dbUrl`, and a falsy result
throws `No connection string found in secret`. -/
def fetchDatabaseCredentials : SecretFetchEnv → Except String String
  | .noArn => .error "DB_SECRET_ARN environment variable is required"
  | .sendError => .error "secrets manager send failed"
  | .emptySecret => .error "Secret value is empty"
  | .parseError => .error "secret string is not valid JSON"
  | .parsed sec =>
      match jsOr sec.connectionString (jsOr sec.url sec.dbUrl) with
      | none => .error "No connection string found in secret"
      | some s =>
          if s == "" then .error "No connection string found in secret"
          else .ok s

/-- Environment for one database cycle: the secret-fetch outcome and whether
pool construction, connection acquisition, the `SELECT 1` query, and pool
teardown succeed on this cycle. -/
structure DbEnv where
  fetch : SecretFetchEnv
  constructOk : Bool
  connectOk : Bool
  queryOk : Bool
  endOk : Bool
  deriving DecidableEq, Repr

/-- The program's global mutable state.  `dbPool` holds the id of the live
pool (ids are allocated by `nextPoolId` so creations are distinguishable);
`isHealthy` is the BackingStoreStatus flag (`true` = Connected). -/
structure ServiceState where
  dbPool : Option Nat
  nextPoolId : Nat
  isHealthy : Bool
  dbConnectionString : Option String
  dependencyHealth : List (String × Bool)
  deriving DecidableEq, Repr

/-- Initial state: no pool, unhealthy, no credentials, empty dependency map
(src/src/index.ts:20-23). -/
def initState : ServiceState :=
  { dbPool := none, nextPoolId := 0, isHealthy := false,
    dbConnectionString := none, dependencyHealth := [] }

/-- Embeds `initializeDatabase` (src/src/index.ts:65-89).  The whole body is
one `try`: fetch credentials, construct the pool (`max: 5`,
`idleTimeoutMillis: 30000`, `connectionTimeoutMillis: 10000`,
`ssl.rejectUnauthorized: false`), assign it to `dbPool`, then probe it with
a bare `connect()` + `release()` (no query), and set `isHealthy := true`.
The `catch` only sets `isHealthy := false`: a pool already assigned to
`dbPool` when the probe throws is left in place. -/
def initializeDatabase (env : DbEnv) (s : ServiceState) :
    ServiceState × List Effect :=
  match fetchDatabaseCredentials env.fetch with
  | .error _ => ({ s with isHealthy := false }, [.fetchSecret])
  | .ok conn =>
      let s1 := { s with dbConnectionString := some conn }
      if env.constructOk then
        let pid := s1.nextPoolId
        let s2 := { s1 with dbPool := some pid, nextPoolId := pid + 1 }
        if env.connectOk then
          ({ s2 with isHealthy := true },
           [.fetchSecret, .createPool pid 5 30000 10000 false,
            .acquire, .release])
        else
          ({ s2 with isHealthy := false },
           [.fetchSecret, .createPool pid 5 30000 10000 false, .acquire])
      else
        ({ s1 with isHealthy := false }, [.fetchSecret])

/-- Embeds `pingDatabase` (src/src/index.ts:95-125).  With no pool it
delegates to `initializeDatabase` and returns.  With a pool it acquires a
connection, runs `SELECT 1`, releases, and sets `isHealthy := true`; on any
throw it sets `isHealthy := false`, calls `dbPool.end()` with the error
swallowed by `.catch(() => {})` (the result never depends on `env.endOk`),
and clears `dbPool` to `none`. -/
def pingDatabase (env : DbEnv) (s : ServiceState) :
    ServiceState × List Effect :=
  match s.dbPool with
  | none => initializeDatabase env s
  | some pid =>
      if env.connectOk then
        if env.queryOk then
          ({ s with isHealthy := true },
           [.acquire, .query "SELECT 1", .release])
        else
          ({ s with isHealthy := false, dbPool := none },
           [.acquire, .query "SELECT 1", .endPool pid])
      else
        ({ s with isHealthy := false, dbPool := none },
         [.acquire, .endPool pid])

/-- Outcome of one dependency probe: an HTTP response with a status code, or
any transport error / timeout (`fetch` rejected or `AbortSignal` fired). -/
inductive DepOutcome where
  | response (status : Nat)
  | error
  deriving DecidableEq, Repr

/-- The `response.ok` predicate of the Fetch API: status in the inclusive
range 200-299. -/
def respOk (status : Nat) : Bool :=
  decide (200 ≤ status ∧ status < 300)

/-- Embeds `pingDependency` (src/src/index.ts:130-148): one GET to
`url ++ "/health"` with a 5000 ms abort timeout; result is `response.ok`,
and any throw is caught and yields `false`.  The embedding is a total
function into `Bool`: no outcome raises to the caller. -/
def pingDependency (url : String) (o : DepOutcome) : Bool × List Effect :=
  (match o with
   | .response status => respOk status
   | .error => false,
   [.httpGet (url ++ "/health") 5000])

/-- JS `Map.set`: overwrite in place when the key is present (keeping
insertion order), append otherwise. -/
def setKey : List (String × Bool) → String → Bool → List (String × Bool)
  | [], k, v => [(k, v)]
  | (k', v') :: rest, k, v =>
      if k' = k then (k, v) :: rest else (k', v') :: setKey rest k v

/-- JS `Map.get`: value of the first (unique) entry with this key. -/
def getVal : List (String × Bool) → String → Option Bool
  | [], _ => none
  | (k', v) :: rest, k => if k' = k then some v else getVal rest k

/-- One round of probes: for each declared URL, probe it and store the
result in the map under that URL. -/
def runProbes (probe : String → DepOutcome) :
    List String → List (String × Bool) → List (String × Bool) × List Effect
  | [], m => (m, [])
  | dep :: rest, m =>
      let r := pingDependency dep (probe dep)
      let rec' := runProbes probe rest (setKey m dep r.1)
      (rec'.1, r.2 ++ rec'.2)

/-- Embeds `pingDependencies` (src/src/index.ts:153-175): early return when
the declared list is empty; otherwise probe every declared URL and write
each boolean result into `dependencyHealth` keyed by URL.  Only
`dependencyHealth` is touched. -/
def pingDependencies (deps : List String) (probe : String → DepOutcome)
    (s : ServiceState) : ServiceState × List Effect :=
  match deps with
  | [] => (s, [])
  | _ :: _ =>
      let r := runProbes probe deps s.dependencyHealth
      ({ s with dependencyHealth := r.1 }, r.2)

/-- The JSON body served by `GET /health`; `dependencies` is a structure
field, so it is present in every response (as the empty mapping when the
map is empty). -/
structure HealthResponse where
  service : String
  status : String
  database : String
  dependencies : List (String × Bool)
  deriving DecidableEq, Repr

/-- Embeds the `/health` handler (src/src/index.ts:223-234): body fields and
HTTP status code, all derived from `isHealthy` and `dependencyHealth`. -/
def healthHandler (serviceName : String) (s : ServiceState) :
    HealthResponse × Nat :=
  ({ service := serviceName,
     status := if s.isHealthy then "healthy" else "unhealthy",
     database := if s.isHealthy then "connected" else "disconnected",
     dependencies := s.dependencyHealth },
   if s.isHealthy then 200 else 503)

/-- Runs a list of timer-driven database cycles in sequence, concatenating
their effect traces. -/
def runCycles (s : ServiceState) :
    List DbEnv → ServiceState × List Effect
  | [] => (s, [])
  | env :: rest =>
      let r1 := pingDatabase env s
      let r2 := runCycles r1.1 rest
      (r2.1, r1.2 ++ r2.2)

/-- The sequential tick state machine of `main` (src/src/index.ts:255,
182-184): one startup `initializeDatabase` from the initial state, then any
number of `pingDatabase` cycles. -/
def runService (e0 : DbEnv) (envs : List DbEnv) :
    ServiceState × List Effect :=
  let r1 := initializeDatabase e0 initState
  let r2 := runCycles r1.1 envs
  (r2.1, r1.2 ++ r2.2)

/-- Replays an effect trace tracking which pool handle is live: a
`createPool` is legal only when no handle is live, an `endPool` only for the
currently live handle; `none` reports a violation, otherwise the live
handle after the trace is returned. -/
def checkHandles : Option Nat → List Effect → Option (Option Nat)
  | live, [] => some live
  | live, .createPool pid _ _ _ _ :: rest =>
      (match live with
       | none => checkHandles (some pid) rest
       | some _ => none)
  | live, .endPool pid :: rest =>
      (match live with
       | some j => if j = pid then checkHandles none rest else none
       | none => none)
  | live, .fetchSecret :: rest => checkHandles live rest
  | live, .acquire :: rest => checkHandles live rest
  | live, .query _ :: rest => checkHandles live rest
  | live, .release :: rest => checkHandles live rest
  | live, .httpGet _ _ :: rest => checkHandles live rest

/-- Selection rule written from the specification's words: the first truthy
value among the fields `connectionString`, `url`, `dbUrl`, in that order,
where a present-but-empty field is skipped. -/
def truthyStr (o : Option String) : Option String :=
  match o with
  | none => none
  | some s => if s == "" then none else some s

/-- Specification-side selection function for the credential fields, to be
compared with `fetchDatabaseCredentials` on parsed secrets. -/
def firstTruthyField (sec : Secret) : Option String :=
  match truthyStr sec.connectionString with
  | some c => some c
  | none =>
      match truthyStr sec.url with
      | some c => some c
      | none => truthyStr sec.dbUrl

/-- All-success cycle environment: the backing store is reachable and the
secret holds a connection string. -/
def envAllOk : DbEnv :=
  { fetch := .parsed ⟨some "postgres://db", none, none⟩,
    constructOk := true, connectOk := true, queryOk := true, endOk := true }

/-- Cycle environment whose only failure is the initial liveness probe: the
secret fetch and pool construction succeed, the acquisition throws. -/
def envProbeFail : DbEnv :=
  { fetch := .parsed ⟨some "postgres://db", none, none⟩,
    constructOk := true, connectOk := false, queryOk := true, endOk := true }

/-- A cycle environment succeeds outright when the secret fetch returns a
connection string and construction, acquisition and query all succeed. -/
def dbEnvOk (env : DbEnv) : Prop :=
  (∃ c, fetchDatabaseCredentials env.fetch = .ok c) ∧
    env.constructOk = true ∧ env.connectOk = true ∧ env.queryOk = true

/-- An `initializeDatabase` call fails when the secret fetch fails, or pool
construction fails, or the initial acquisition fails. -/
def initFails (env : DbEnv) : Prop :=
  (∀ c, fetchDatabaseCredentials env.fetch ≠ .ok c) ∨
    env.constructOk = false ∨ env.connectOk = false

/-- Recognizes a `query` effect in a trace. -/
def isQueryEffect : Effect → Bool
  | .query _ => true
  | _ => false

/-- Registry state used by the snapshot claims: Connected, with dependency
record A ↦ true, B ↦ false. -/
def snapshotStateAB : ServiceState :=
  { initState with
    isHealthy := true,
    dependencyHealth := [("A", true), ("B", false)] }

/-- State holding a live ConnectionHandle (pool id 0), as after a successful
initialization. -/
def verifyState : ServiceState :=
  { initState with dbPool := some 0, nextPoolId := 1, isHealthy := true }

/-- Cycle environment whose only failure is the `SELECT 1` query during
verification. -/
def envQueryFail : DbEnv :=
  { fetch := .parsed ⟨some "postgres://db", none, none⟩,
    constructOk := true, connectOk := true, queryOk := false, endOk := true }

/-- Probe environment in which dependency `B` fails with a transport error
and every other dependency answers 200. -/
def probeBFails : String → DepOutcome :=
  fun v => if v = "B" then .error else .response 200

/-- C1 counterexample: starting with no handle, when the secret fetch and
pool construction succeed but the initial liveness probe fails,
`initializeDatabase` sets the status to Disconnected but leaves the newly
constructed handle installed — the handle reference is not absent after the
call, contradicting the claim. -/
theorem c1_counterexample :
    (initializeDatabase envProbeFail initState).1.isHealthy = false ∧
    ¬ (initializeDatabase envProbeFail initState).1.dbPool = none := by
  decide

/-- C1 (amended): every failure of `initializeDatabase` sets
BackingStoreStatus to Disconnected and returns without raising (the
embedding is a total function); the handle reference is unchanged — hence
still absent — when the secret fetch or the pool construction fails, but
when the failure is the initial liveness probe the newly constructed handle
remains installed. -/
theorem c1_ensure_connection_failure (env : DbEnv) (s : ServiceState)
    (h : initFails env) :
    (initializeDatabase env s).1.isHealthy = false ∧
    ((∀ c, fetchDatabaseCredentials env.fetch ≠ .ok c) ∨
        env.constructOk = false →
      (initializeDatabase env s).1.dbPool = s.dbPool) ∧
    ((∃ c, fetchDatabaseCredentials env.fetch = .ok c) →
        env.constructOk = true →
      (initializeDatabase env s).1.dbPool = some s.nextPoolId) := by
  cases hf : fetchDatabaseCredentials env.fetch with
  | error e =>
      refine ⟨?_, ?_, ?_⟩
      · simp [initializeDatabase, hf]
      · intro _; simp [initializeDatabase, hf]
      · rintro ⟨c, hc⟩
        exact Except.noConfusion hc
  | ok c =>
      cases hcon : env.constructOk with
      | false =>
          refine ⟨?_, ?_, ?_⟩
          · simp [initializeDatabase, hf, hcon]
          · intro _; simp [initializeDatabase, hf, hcon]
          · intro _ hc
            exact Bool.noConfusion hc
      | true =>
          have hacq : env.connectOk = false := by
            rcases h with h | h | h
            · exact absurd hf (h c)
            · rw [hcon] at h; exact Bool.noConfusion h
            · exact h
          refine ⟨?_, ?_, ?_⟩
          · simp [initializeDatabase, hf, hcon, hacq]
          · rintro (h2 | h2)
            · exact absurd rfl (h2 c)
            · exact Bool.noConfusion h2
          · intro _ _; simp [initializeDatabase, hf, hcon, hacq]

/-- C1 witness: the amended theorem applied to the probe-failure
environment from the initial state. -/
theorem c1_witness :
    initFails envProbeFail ∧
    ((initializeDatabase envProbeFail initState).1.isHealthy = false ∧
      ((∀ c, fetchDatabaseCredentials envProbeFail.fetch ≠ .ok c) ∨
          envProbeFail.constructOk = false →
        (initializeDatabase envProbeFail initState).1.dbPool =
          initState.dbPool) ∧
      ((∃ c, fetchDatabaseCredentials envProbeFail.fetch = .ok c) →
          envProbeFail.constructOk = true →
        (initializeDatabase envProbeFail initState).1.dbPool =
          some initState.nextPoolId)) :=
  ⟨Or.inr (Or.inr rfl),
    c1_ensure_connection_failure envProbeFail initState
      (Or.inr (Or.inr rfl))⟩

/-- C3: with BackingStoreStatus Connected and dependency record
A ↦ true, B ↦ false, the served snapshot has overall status `healthy`,
database `connected` and exactly those dependencies; and for every state
the HTTP code is 200 exactly when the status is `healthy`, and 503
otherwise. -/
theorem c3_snapshot_correctness (name : String) (s : ServiceState)
    (h1 : s.isHealthy = true)
    (h2 : s.dependencyHealth = [("A", true), ("B", false)]) :
    (healthHandler name s).1.status = "healthy" ∧
    (healthHandler name s).1.database = "connected" ∧
    (healthHandler name s).1.dependencies = [("A", true), ("B", false)] ∧
    ∀ t : ServiceState,
      ((healthHandler name t).2 = 200 ↔
        (healthHandler name t).1.status = "healthy") ∧
      ((healthHandler name t).1.status ≠ "healthy" →
        (healthHandler name t).2 = 503) := by
  refine ⟨by simp [healthHandler, h1], by simp [healthHandler, h1],
    by simp [healthHandler, h2], ?_⟩
  intro t
  cases ht : t.isHealthy <;> simp [healthHandler, ht]

/-- C3 witness: the snapshot theorem applied to the concrete Connected
state with record A ↦ true, B ↦ false. -/
theorem c3_witness :
    (healthHandler "svc" snapshotStateAB).1.status = "healthy" ∧
    (healthHandler "svc" snapshotStateAB).1.database = "connected" ∧
    (healthHandler "svc" snapshotStateAB).1.dependencies =
      [("A", true), ("B", false)] ∧
    ∀ t : ServiceState,
      ((healthHandler "svc" t).2 = 200 ↔
        (healthHandler "svc" t).1.status = "healthy") ∧
      ((healthHandler "svc" t).1.status ≠ "healthy" →
        (healthHandler "svc" t).2 = 503) :=
  c3_snapshot_correctness "svc" snapshotStateAB rfl rfl

/-- C4 counterexample: a fully successful `initializeDatabase` run marks the
state Connected yet its effect trace contains no query at all — the initial
liveness probe is a bare acquisition and release, not an acquisition
followed by a trivial query as the claim states. -/
theorem c4_counterexample :
    (initializeDatabase envAllOk initState).1.isHealthy = true ∧
    (initializeDatabase envAllOk initState).2.any isQueryEffect = false := by
  decide

/-- C4 (amended): when no handle exists, the cycle fetches the connection
string, constructs the bounded pool (max 5 connections, 30 s idle timeout,
10 s acquisition timeout, server-identity verification disabled) and
performs one liveness probe consisting of a connection acquisition and
release — with no query — before marking the status Connected and storing
the handle. -/
theorem c4_ensure_connection_success (env : DbEnv) (s : ServiceState)
    (c : String)
    (hp : s.dbPool = none)
    (hf : fetchDatabaseCredentials env.fetch = .ok c)
    (hcon : env.constructOk = true)
    (hacq : env.connectOk = true) :
    (pingDatabase env s).1.isHealthy = true ∧
    (pingDatabase env s).1.dbPool = some s.nextPoolId ∧
    (pingDatabase env s).1.dbConnectionString = some c ∧
    (pingDatabase env s).2 =
      [.fetchSecret, .createPool s.nextPoolId 5 30000 10000 false,
       .acquire, .release] := by
  simp [pingDatabase, hp, initializeDatabase, hf, hcon, hacq]

/-- C4 witness: the amended theorem applied to the all-success environment
from the initial state. -/
theorem c4_witness :
    (pingDatabase envAllOk initState).1.isHealthy = true ∧
    (pingDatabase envAllOk initState).1.dbPool = some initState.nextPoolId ∧
    (pingDatabase envAllOk initState).1.dbConnectionString =
      some "postgres://db" ∧
    (pingDatabase envAllOk initState).2 =
      [.fetchSecret,
       .createPool initState.nextPoolId 5 30000 10000 false,
       .acquire, .release] :=
  c4_ensure_connection_success envAllOk initState "postgres://db" rfl
    rfl rfl rfl

/-- C5: when a handle exists and the acquisition or the trivial query
throws, the cycle sets the status Disconnected, emits a teardown of exactly
that handle, clears the handle reference to `none` (so the next cycle takes
the initialization branch), and its outcome never depends on whether the
teardown itself fails — the teardown error is swallowed.  The embedding is
total: nothing is raised to the caller. -/
theorem c5_verify_connection_failure (env : DbEnv) (s : ServiceState)
    (pid : Nat)
    (hp : s.dbPool = some pid)
    (hfail : env.connectOk = false ∨ env.queryOk = false) :
    (pingDatabase env s).1.isHealthy = false ∧
    (pingDatabase env s).1.dbPool = none ∧
    Effect.endPool pid ∈ (pingDatabase env s).2 ∧
    ∀ b, pingDatabase { env with endOk := b } s = pingDatabase env s := by
  have hmain : (pingDatabase env s).1.isHealthy = false ∧
      (pingDatabase env s).1.dbPool = none ∧
      Effect.endPool pid ∈ (pingDatabase env s).2 := by
    rcases hfail with hfail | hfail
    · simp [pingDatabase, hp, hfail]
    · cases hc : env.connectOk <;> simp [pingDatabase, hp, hc, hfail]
  refine ⟨hmain.1, hmain.2.1, hmain.2.2, ?_⟩
  intro b
  simp [pingDatabase, hp]

/-- Helper: a cycle run in an all-success environment ends Connected from
any state, whichever branch it takes. -/
theorem pingDatabase_connected (env : DbEnv) (s : ServiceState)
    (h : dbEnvOk env) : (pingDatabase env s).1.isHealthy = true := by
  obtain ⟨⟨c, hc⟩, hcon, hacq, hq⟩ := h
  cases hp : s.dbPool with
  | none => simp [pingDatabase, hp, initializeDatabase, hc, hcon, hacq]
  | some pid => simp [pingDatabase, hp, hacq, hq]

/-- C2: after any reachable history of the sequential tick machine (startup
initialization and any cycles, with any failure pattern), the first cycle
whose environment is an all-success one — the backing store has recovered —
ends with BackingStoreStatus Connected, with no input beyond the cycle
itself; this holds whether the preceding failures were in initialization or
in verification. -/
theorem c2_self_healing (e0 : DbEnv) (envs : List DbEnv) (env : DbEnv)
    (h : dbEnvOk env) :
    (pingDatabase env (runService e0 envs).1).1.isHealthy = true :=
  pingDatabase_connected env _ h

/-- C2 witness: startup fails at the initial probe, the next cycle fails at
the query, then a recovered cycle reconnects. -/
theorem c2_witness :
    dbEnvOk envAllOk ∧
    (pingDatabase envAllOk
      (runService envProbeFail [envQueryFail]).1).1.isHealthy = true :=
  ⟨⟨⟨"postgres://db", rfl⟩, rfl, rfl, rfl⟩,
    c2_self_healing envProbeFail [envQueryFail] envAllOk
      ⟨⟨"postgres://db", rfl⟩, rfl, rfl, rfl⟩⟩

/-- C7: every dependency probe performs exactly one GET to `url ++ "/health"`
with a 5000 ms timeout, and returns `true` exactly when a response was
received with a success (2xx) status; a transport error, timeout, or
non-success status yields `false`.  The embedding is a total function into
`Bool`: no outcome raises to the caller. -/
theorem c7_check_one (url : String) (o : DepOutcome) :
    (pingDependency url o).2 = [.httpGet (url ++ "/health") 5000] ∧
    ((pingDependency url o).1 = true ↔
      ∃ status, o = .response status ∧ 200 ≤ status ∧ status < 300) := by
  refine ⟨rfl, ?_⟩
  cases o with
  | response status =>
      simp only [pingDependency, respOk, decide_eq_true_eq]
      constructor
      · intro hok
        exact ⟨status, rfl, hok⟩
      · rintro ⟨s2, hs, h1, h2⟩
        injection hs with hs2
        subst hs2
        exact ⟨h1, h2⟩
  | error =>
      simp [pingDependency]

/-- C9: with an empty declared dependency list, one round of dependency
checks is a no-op — the state is returned unchanged and no effect (no probe)
is performed — and the snapshot of a state with an empty dependency record
still carries the `dependencies` field, as the empty mapping. -/
theorem c9_empty_dependency_list (probe : String → DepOutcome)
    (s : ServiceState) (name : String) :
    pingDependencies [] probe s = (s, []) ∧
    (healthHandler name
      { s with dependencyHealth := [] }).1.dependencies = [] :=
  ⟨rfl, rfl⟩

/-- C10: on every parsed secret, the credential fetch returns exactly the
first truthy value among the fields `connectionString`, `url`, `dbUrl`, in
that order — a present-but-empty field is skipped in favor of the next —
and fails with `No connection string found in secret` when none is
truthy. -/
theorem c10_credential_selection (sec : Secret) :
    fetchDatabaseCredentials (.parsed sec) =
      (match firstTruthyField sec with
       | some c => Except.ok c
       | none => Except.error "No connection string found in secret") := by
  obtain ⟨cs, u, d⟩ := sec
  cases cs <;> cases u <;> cases d <;>
    simp only [fetchDatabaseCredentials, firstTruthyField, truthyStr,
      jsOr, jsTruthy] <;>
    split_ifs <;> simp_all

/-- C5 witness: the verification-failure theorem applied to a live-handle
state with a failing query. -/
theorem c5_witness :
    (pingDatabase envQueryFail verifyState).1.isHealthy = false ∧
    (pingDatabase envQueryFail verifyState).1.dbPool = none ∧
    Effect.endPool 0 ∈ (pingDatabase envQueryFail verifyState).2 ∧
    ∀ b, pingDatabase { envQueryFail with endOk := b } verifyState =
      pingDatabase envQueryFail verifyState :=
  c5_verify_connection_failure envQueryFail verifyState 0 rfl (Or.inr rfl)

/-- Helper: replaying a concatenated trace composes the handle checks. -/
theorem checkHandles_append (t1 t2 : List Effect) :
    ∀ live, checkHandles live (t1 ++ t2) =
      (checkHandles live t1).bind fun l2 => checkHandles l2 t2 := by
  induction t1 with
  | nil => intro live; rfl
  | cons e rest ih =>
      intro live
      cases e with
      | createPool pid a b c r =>
          cases live with
          | none => simpa [checkHandles] using ih (some pid)
          | some j => rfl
      | endPool pid =>
          cases live with
          | none => rfl
          | some j =>
              by_cases h : j = pid
              · simp [checkHandles, h, ih]
              · simp [checkHandles, h]
      | fetchSecret => simpa [checkHandles] using ih live
      | acquire => simpa [checkHandles] using ih live
      | query q => simpa [checkHandles] using ih live
      | release => simpa [checkHandles] using ih live
      | httpGet u t => simpa [checkHandles] using ih live

/-- Helper: the trace of one `initializeDatabase` call entered with no live
handle replays cleanly and ends on the handle the call leaves installed. -/
theorem checkHandles_init (env : DbEnv) (s : ServiceState)
    (hp : s.dbPool = none) :
    checkHandles none (initializeDatabase env s).2 =
      some (initializeDatabase env s).1.dbPool := by
  cases hf : fetchDatabaseCredentials env.fetch with
  | error e => simp [initializeDatabase, hf, checkHandles, hp]
  | ok c =>
      cases hcon : env.constructOk with
      | false => simp [initializeDatabase, hf, hcon, checkHandles, hp]
      | true =>
          cases hacq : env.connectOk with
          | false => simp [initializeDatabase, hf, hcon, hacq, checkHandles]
          | true => simp [initializeDatabase, hf, hcon, hacq, checkHandles]

/-- Helper: the trace of one `pingDatabase` cycle replays cleanly from the
handle live before the cycle and ends on the handle live after it. -/
theorem checkHandles_cycle (env : DbEnv) (s : ServiceState) :
    checkHandles s.dbPool (pingDatabase env s).2 =
      some (pingDatabase env s).1.dbPool := by
  cases hp : s.dbPool with
  | none =>
      simp only [pingDatabase, hp]
      exact checkHandles_init env s hp
  | some pid =>
      cases hacq : env.connectOk with
      | true =>
          cases hq : env.queryOk with
          | true => simp [pingDatabase, hp, hacq, hq, checkHandles]
          | false => simp [pingDatabase, hp, hacq, hq, checkHandles]
      | false => simp [pingDatabase, hp, hacq, checkHandles]

/-- Helper: any sequence of cycles replays cleanly from the handle live at
its start. -/
theorem checkHandles_runCycles (envs : List DbEnv) :
    ∀ s : ServiceState,
      checkHandles s.dbPool (runCycles s envs).2 =
        some (runCycles s envs).1.dbPool := by
  induction envs with
  | nil => intro s; rfl
  | cons env rest ih =>
      intro s
      simp only [runCycles]
      rw [checkHandles_append, checkHandles_cycle]
      simpa using ih (pingDatabase env s).1

/-- C6: along every run of the sequential tick machine (startup
initialization, then any cycles with any outcomes), the full effect trace
replays cleanly under `checkHandles`: every pool creation happens while no
pool is live — so at most one ConnectionHandle exists at a time and every
new creation is preceded by the teardown of the previous handle — and the
handle live at the end is exactly the one the final state stores. -/
theorem c6_exclusive_handle (e0 : DbEnv) (envs : List DbEnv) :
    checkHandles none (runService e0 envs).2 =
      some (runService e0 envs).1.dbPool := by
  simp only [runService]
  rw [checkHandles_append, checkHandles_init e0 initState rfl]
  simpa using checkHandles_runCycles envs (initializeDatabase e0 initState).1

/-- Helper: reading the key just written. -/
theorem getVal_setKey_self (m : List (String × Bool)) (k : String)
    (v : Bool) : getVal (setKey m k v) k = some v := by
  induction m with
  | nil => simp [setKey, getVal]
  | cons p rest ih =>
      obtain ⟨k', v'⟩ := p
      by_cases h : k' = k
      · simp [setKey, getVal, h]
      · simp [setKey, getVal, h, ih]

/-- Helper: writing one key leaves every other key unchanged. -/
theorem getVal_setKey_other (m : List (String × Bool)) (k : String)
    (v : Bool) (k2 : String) (h : k2 ≠ k) :
    getVal (setKey m k v) k2 = getVal m k2 := by
  have h2 : ¬ (k = k2) := fun hh => h hh.symm
  induction m with
  | nil => simp [setKey, getVal, h2]
  | cons p rest ih =>
      obtain ⟨k', v'⟩ := p
      by_cases hk : k' = k
      · subst hk
        simp [setKey, getVal, h2]
      · simp [setKey, getVal, hk, ih]

/-- Helper: a probe round does not touch keys outside the probed list. -/
theorem runProbes_getVal_not_mem (probe : String → DepOutcome) :
    ∀ (deps : List String) (u : String), u ∉ deps →
      ∀ m, getVal (runProbes probe deps m).1 u = getVal m u := by
  intro deps
  induction deps with
  | nil => intro u _ m; rfl
  | cons d rest ih =>
      intro u h m
      have hr : u ∉ rest := fun hx => h (List.mem_cons_of_mem d hx)
      have hd : u ≠ d := fun he => h (he ▸ List.mem_cons_self d rest)
      simp only [runProbes]
      rw [ih u hr, getVal_setKey_other _ _ _ _ hd]

/-- Helper: after a probe round, every probed URL holds exactly its own
probe's result. -/
theorem runProbes_getVal_mem (probe : String → DepOutcome) :
    ∀ (deps : List String) (u : String), u ∈ deps →
      ∀ m, getVal (runProbes probe deps m).1 u =
        some (pingDependency u (probe u)).1 := by
  intro deps
  induction deps with
  | nil => intro u h; cases h
  | cons d rest ih =>
      intro u h m
      by_cases hr : u ∈ rest
      · simp only [runProbes]
        exact ih u hr _
      · have hd : u = d := by
          rcases List.mem_cons.mp h with h1 | h1
          · exact h1
          · exact absurd h1 hr
        subst hd
        simp only [runProbes]
        rw [runProbes_getVal_not_mem probe rest u hr, getVal_setKey_self]

/-- Helper: changing only the probe outcome of URL `u` (and the map's value
at `u`) cannot change what a probe round records under any other key. -/
theorem runProbes_getVal_congr (probe probe2 : String → DepOutcome)
    (u : String) (hagree : ∀ v, v ≠ u → probe2 v = probe v) :
    ∀ (deps : List String) (m1 m2 : List (String × Bool)),
      (∀ k, k ≠ u → getVal m1 k = getVal m2 k) →
      ∀ k, k ≠ u →
        getVal (runProbes probe deps m1).1 k =
          getVal (runProbes probe2 deps m2).1 k := by
  intro deps
  induction deps with
  | nil => intro m1 m2 hm k hk; exact hm k hk
  | cons d rest ih =>
      intro m1 m2 hm k hk
      simp only [runProbes]
      apply ih
      · intro k2 hk2
        by_cases hd : d = u
        · subst hd
          rw [getVal_setKey_other _ _ _ _ hk2,
            getVal_setKey_other _ _ _ _ hk2]
          exact hm k2 hk2
        · rw [hagree d hd]
          by_cases hkd : k2 = d
          · subst hkd
            rw [getVal_setKey_self, getVal_setKey_self]
          · rw [getVal_setKey_other _ _ _ _ hkd,
              getVal_setKey_other _ _ _ _ hkd]
            exact hm k2 hk2
      · exact hk

/-- C8: in any round of dependency checks, a URL `u` whose probe fails is
recorded as `false` under `u` only: the backing-store status and the pool
are untouched by the round, and the value recorded under every other key is
independent of `u`'s outcome (replacing `u`'s probe by any other outcome
changes no other key). -/
theorem c8_dependency_isolation (deps : List String) (u : String)
    (probe probe2 : String → DepOutcome) (s : ServiceState)
    (hmem : u ∈ deps)
    (hfail : (pingDependency u (probe u)).1 = false)
    (hagree : ∀ v, v ≠ u → probe2 v = probe v) :
    (pingDependencies deps probe s).1.isHealthy = s.isHealthy ∧
    (pingDependencies deps probe s).1.dbPool = s.dbPool ∧
    getVal (pingDependencies deps probe s).1.dependencyHealth u =
      some false ∧
    ∀ k, k ≠ u →
      getVal (pingDependencies deps probe2 s).1.dependencyHealth k =
        getVal (pingDependencies deps probe s).1.dependencyHealth k := by
  cases deps with
  | nil => cases hmem
  | cons d rest =>
      refine ⟨rfl, rfl, ?_, ?_⟩
      · simp only [pingDependencies]
        rw [runProbes_getVal_mem probe _ u hmem, hfail]
      · intro k hk
        simp only [pingDependencies]
        exact (runProbes_getVal_congr probe probe2 u hagree _ _ _
          (fun _ _ => rfl) k hk).symm

/-- C8 witness: the isolation theorem on the round over `A` and `B` in
which `B`'s probe fails with a transport error. -/
theorem c8_witness :
    ("B" : String) ∈ ["A", "B"] ∧
    (pingDependency "B" (probeBFails "B")).1 = false ∧
    ((pingDependencies ["A", "B"] probeBFails initState).1.isHealthy =
        initState.isHealthy ∧
      (pingDependencies ["A", "B"] probeBFails initState).1.dbPool =
        initState.dbPool ∧
      getVal (pingDependencies
        ["A", "B"] probeBFails initState).1.dependencyHealth "B" =
        some false ∧
      ∀ k, k ≠ "B" →
        getVal (pingDependencies
          ["A", "B"] probeBFails initState).1.dependencyHealth k =
          getVal (pingDependencies
            ["A", "B"] probeBFails initState).1.dependencyHealth k) :=
  ⟨by decide, by decide,
    c8_dependency_isolation ["A", "B"] "B" probeBFails probeBFails
      initState (by decide) (by decide) (fun _ _ => rfl)⟩

end DatabaseService
